import Mathlib

/-!
Verification of `tank-data-ha-addon` (src/tank-data/src/tank_data_reader.py and
src/tank-data/src/web_server.py) against its natural-language specification.

The Python code is shallowly embedded: pure transforms become Lean functions,
the SFTP transport becomes an explicit `Transport` value, exceptions become
`Option`/sum-like outcomes, and Python's stable `list.sort(key=..., reverse=True)`
is modelled by Mathlib's stable insertion sort with the reversed key order
(Timsort and insertion sort agree on all stable-sort observations).
-/

namespace TankData

/-- Python's `list.sort(key=key, reverse=True)`: a stable sort placing larger
keys first.  `orderedInsert` with the relation `key b ≤ key a` inserts an
element before the first position whose key is `≤` its own, which preserves
the original relative order of equal keys, exactly as Timsort does. -/
def pySortDescBy {α β : Type} [LinearOrder β] (key : α → β) (l : List α) : List α :=
  l.insertionSort (fun a b => key b ≤ key a)

/-! ## Python string primitives

Lean's built-in `String` functions do not reduce inside the kernel, so the
Python string operations used by the reader are embedded over `String.data`
(the underlying character list).  Python compares and lowercases by code
point in the ASCII range relevant here, which is exactly what these do. -/

/-- Python `str.lower()` (the relevant ASCII range). -/
def pyLower (s : String) : String :=
  ⟨s.data.map Char.toLower⟩

/-- Python `str.endswith(t)`. -/
def pyEndsWith (s t : String) : Bool :=
  s.data.drop (s.data.length - t.data.length) == t.data

/-! ## File selection: `get_newest_files` (tank_data_reader.py 97-115) -/

/-- One entry of `sftp.listdir_attr`: remote file name and modification time. -/
structure FileAttr where
  filename : String
  st_mtime : Int
deriving Repr, DecidableEq

/-- Outcome of `sftp.listdir_attr(path)`: the listing, or the message of the
exception it raised. -/
inductive ListingResult where
  | ok (file_list : List FileAttr)
  | err (msg : String)
deriving Repr, DecidableEq

/-- `MAX_FILES` (tank_data_reader.py line 66). -/
def MAX_FILES : Nat := 10

/-- `get_newest_files(sftp, path, max_files)`: filters the listing to names
ending (case-insensitively) in `.xml`, sorts by `st_mtime` newest first with
Python's stable sort, and keeps the first `max_files`.  The `except` clause
turns any listing failure into the empty list. -/
def get_newest_files (listing : ListingResult) (max_files : Nat) : List FileAttr :=
  match listing with
  | .err _ => []
  | .ok file_list =>
      let xml_files := file_list.filter (fun f => pyEndsWith (pyLower f.filename) ".xml")
      (pySortDescBy (fun f => f.st_mtime) xml_files).take max_files

/-! ## Date handling: `datetime.strptime`, `strftime`, `isoformat`

CPython's `strptime` compiles `'%Y-%m-%d %H:%M:%S'` into a regular expression
in which `%Y` is exactly four digits, the other fields are one or two digits
with `%m ∈ 1..12`, `%d ∈ 1..31`, `%H ∈ 0..23`, `%M, %S ∈ 0..59`, and the
`datetime` constructor then validates the day against the month and the year
against `MINYEAR = 1`.  The embedding below reproduces that on the
single-space separator form of the input. -/

structure PyDateTime where
  year : Nat
  month : Nat
  day : Nat
  hour : Nat
  minute : Nat
  second : Nat
deriving Repr, DecidableEq

def isLeapYear (y : Nat) : Bool :=
  (y % 4 == 0 && y % 100 != 0) || (y % 400 == 0)

def daysInMonth (y m : Nat) : Nat :=
  if m == 2 then (if isLeapYear y then 29 else 28)
  else if m == 4 || m == 6 || m == 9 || m == 11 then 30
  else 31

def validDateTime (d : PyDateTime) : Bool :=
  decide (1 ≤ d.year) && decide (d.year ≤ 9999) &&
    decide (1 ≤ d.month) && decide (d.month ≤ 12) &&
    decide (1 ≤ d.day) && decide (d.day ≤ daysInMonth d.year d.month) &&
    decide (d.hour ≤ 23) && decide (d.minute ≤ 59) && decide (d.second ≤ 59)

/-- Split a character list on a separator, keeping empty parts (as Python's
`str.split(sep)` does). -/
def splitOnChar (sep : Char) (l : List Char) : List (List Char) :=
  l.foldr
    (fun ch acc =>
      match acc with
      | [] => [[ch]]
      | cur :: rest => if ch == sep then [] :: cur :: rest else (ch :: cur) :: rest)
    [[]]

def digitsVal (l : List Char) : Nat :=
  l.foldl (fun n c => n * 10 + (c.toNat - 48)) 0

/-- A one- or two-digit numeric field of `strptime`. -/
def digitField2 (l : List Char) : Option Nat :=
  if decide (1 ≤ l.length) && decide (l.length ≤ 2) && l.all Char.isDigit then
    some (digitsVal l)
  else none

/-- The `%Y` field: exactly four digits. -/
def yearField (l : List Char) : Option Nat :=
  if l.length == 4 && l.all Char.isDigit then some (digitsVal l) else none

/-- `datetime.strptime(s, '%Y-%m-%d %H:%M:%S')`; `none` models `ValueError`. -/
def strptimeYmd (s : String) : Option PyDateTime :=
  match splitOnChar ' ' s.data with
  | [datePart, timePart] =>
      match splitOnChar '-' datePart, splitOnChar ':' timePart with
      | [ys, ms, ds], [hs, mins, ss] =>
          match yearField ys, digitField2 ms, digitField2 ds,
              digitField2 hs, digitField2 mins, digitField2 ss with
          | some y, some mo, some d, some h, some mi, some se =>
              let dt : PyDateTime := ⟨y, mo, d, h, mi, se⟩
              if validDateTime dt then some dt else none
          | _, _, _, _, _, _ => none
      | _, _ => none
  | _ => none

/-- `datetime.strptime(s, '%d.%m.%Y %H:%M:%S')`; `none` models `ValueError`. -/
def strptimeDmy (s : String) : Option PyDateTime :=
  match splitOnChar ' ' s.data with
  | [datePart, timePart] =>
      match splitOnChar '.' datePart, splitOnChar ':' timePart with
      | [ds, ms, ys], [hs, mins, ss] =>
          match yearField ys, digitField2 ms, digitField2 ds,
              digitField2 hs, digitField2 mins, digitField2 ss with
          | some y, some mo, some d, some h, some mi, some se =>
              let dt : PyDateTime := ⟨y, mo, d, h, mi, se⟩
              if validDateTime dt then some dt else none
          | _, _, _, _, _, _ => none
      | _, _ => none
  | _ => none

def pad2 (n : Nat) : String :=
  if n < 10 then "0" ++ toString n else toString n

def pad4 (n : Nat) : String :=
  if n < 10 then "000" ++ toString n
  else if n < 100 then "00" ++ toString n
  else if n < 1000 then "0" ++ toString n
  else toString n

/-- `datetime.isoformat()` for a whole-second datetime. -/
def isoformat (d : PyDateTime) : String :=
  pad4 d.year ++ "-" ++ pad2 d.month ++ "-" ++ pad2 d.day ++ "T" ++
    pad2 d.hour ++ ":" ++ pad2 d.minute ++ ":" ++ pad2 d.second

/-- `datetime.strftime('%d.%m.%Y %H:%M:%S')`. -/
def strftimeDmy (d : PyDateTime) : String :=
  pad2 d.day ++ "." ++ pad2 d.month ++ "." ++ pad4 d.year ++ " " ++
    pad2 d.hour ++ ":" ++ pad2 d.minute ++ ":" ++ pad2 d.second

/-! ## Record extraction: `parse_xml_file` (tank_data_reader.py 135-226) -/

/-- The sub-elements of the `Transaction` element that `parse_xml_file` reads.
Each mirrors ElementTree's `find` plus `.text`: `none` when the element is
absent (`find` returns `None`), `some none` when the element is present but
empty (`.text` is `None`, e.g. `<TransactionNumber/>`), and `some (some s)`
when the element carries text `s`. -/
structure Transaction where
  transactionNumber : Option (Option String)
  transactionStartDate : Option (Option String)
  dispenserNumber : Option (Option String)
  articleNumber : Option (Option String)
  transactionQuantity : Option (Option String)
  additionalEntry : Option (Option String)
deriving Repr, DecidableEq

/-- One downloaded file as `parse_xml_file` sees it: `malformed` when
`ET.parse` raises, otherwise the parsed tree reduced to its `Transaction`
element (or `none` when that element is missing). -/
inductive XmlFile where
  | malformed
  | parsed (transaction : Option Transaction)
deriving Repr, DecidableEq

/-- The `transaction_data` dictionary built by `parse_xml_file`.  Every key
the function ever writes is a field here, so a returned `Record` always
carries all nine keys.  The fields the code copies straight from `.text`
(`TransactionNumber`, `DispenserNumber`, `ArticleNumber`,
`RawArticleNumber`, `Kennzeichen`) can hold Python `None` for a
present-but-empty element and are therefore `Option String` (`none` = the
null value); the date and quantity fields are never null in a returned
record, because a null text there raises `TypeError` and aborts the whole
parse. -/
structure Record where
  TransactionNumber : Option String
  TransactionStartDate : String
  RawDate : String
  DispenserNumber : Option String
  ArticleNumber : Option String
  RawArticleNumber : Option String
  TransactionQuantity : String
  RawQuantity : Rat
  Kennzeichen : Option String
deriving Repr, DecidableEq

/-- The copy-`.text`-or-sentinel pattern of lines 150-155, 179-184 and
215-220: `'N/A'` for an absent element, the (possibly null) text
otherwise. -/
def textOrNA : Option (Option String) → Option String
  | none => some "N/A"
  | some txt => txt

/-- The date block (lines 157-177): `strptime(None, ...)` raises `TypeError`,
which only the function-level handler catches, so a present-but-empty date
element yields `none` (the whole parse fails); otherwise the two formats are
tried in order and the display/`RawDate` pair is produced. -/
def dateFields : Option (Option String) → Option (String × String)
  | none => some ("N/A", "1970-01-01T00:00:00")
  | some none => none
  | some (some txt) =>
      match strptimeYmd txt with
      | some dt => some (strftimeDmy dt, isoformat dt)
      | none =>
          match strptimeDmy txt with
          | some dt => some (txt, isoformat dt)
          | none => some (txt, txt)

/-- The article block (lines 186-201): `.text == '1'` and `.text == '2'` are
Python comparisons against the possibly-null text, anything else (null
included) passes through as both label and raw code. -/
def articleFields : Option (Option String) → Option String × Option String
  | none => (some "N/A", some "N/A")
  | some a =>
      if a == some "1" then (some "AVGAS", some "1")
      else if a == some "2" then (some "MOGAS", some "2")
      else (a, a)

/-- The quantity block (lines 203-213): `float(None)` raises `TypeError`,
which the inner `except ValueError` does not catch, so a present-but-empty
quantity element yields `none` (the whole parse fails); a present text is
kept for display with `float` failures defaulting the numeric value to
0.0. -/
def quantityFields (pyFloat : String → Option Rat) :
    Option (Option String) → Option (String × Rat)
  | none => some ("N/A", 0)
  | some none => none
  | some (some q) => some (q, (pyFloat q).getD 0)

/-- `parse_xml_file(file_path)`.  `pyFloat` stands for Python's built-in
`float(text)`, returning `none` where it raises `ValueError`; the claims
below do not depend on which strings it accepts.  `none` overall models the
`return None` paths: unparsable XML, missing `Transaction` element, or a
`TypeError` from a null-text date or quantity element reaching the
function-level handler. -/
def parse_xml_file (pyFloat : String → Option Rat) : XmlFile → Option Record
  | .malformed => none
  | .parsed none => none
  | .parsed (some t) =>
      match dateFields t.transactionStartDate,
          quantityFields pyFloat t.transactionQuantity with
      | some df, some qf =>
          some
            { TransactionNumber := textOrNA t.transactionNumber,
              TransactionStartDate := df.1,
              RawDate := df.2,
              DispenserNumber := textOrNA t.dispenserNumber,
              ArticleNumber := (articleFields t.articleNumber).1,
              RawArticleNumber := (articleFields t.articleNumber).2,
              TransactionQuantity := qf.1,
              RawQuantity := qf.2,
              Kennzeichen := textOrNA t.additionalEntry }
      | _, _ => none

/-! ## Orchestration: `fetch_and_process_data` (tank_data_reader.py 508-553) -/

/-- The parse-and-sort tail of `fetch_and_process_data` (lines 530-543):
parse every downloaded file, keep the successes, and sort by `RawDate`
descending with Python's stable sort.  The sort key is the `RawDate` string
compared by code points, embedded as its character list. -/
def process_downloaded (pyFloat : String → Option Rat)
    (downloaded_files : List XmlFile) : List Record :=
  let data_list := downloaded_files.filterMap (parse_xml_file pyFloat)
  pySortDescBy (fun r => r.RawDate.data) data_list

/-- The SFTP world a refresh runs against.  `connectOk` models
`connect_to_sftp` succeeding; `listing` is the `listdir_attr` outcome;
`download f` is the joint outcome of `sftp.get` and reading the file:
`none` when the download raises (dropped by `download_files`), `some file`
when bytes arrive — including malformed XML. -/
structure Transport where
  connectOk : Bool
  listing : ListingResult
  download : String → Option XmlFile

/-- `fetch_and_process_data()`: aborts with `None` when the connection fails
or when the (possibly failed) listing yields no XML files; otherwise
downloads, parses and sorts.  File-system side effects (the local copies in
DATA_DIR) are not observable by any claim and are omitted. -/
def fetch_and_process_data (pyFloat : String → Option Rat) (tr : Transport) :
    Option (List Record) :=
  if !tr.connectOk then none
  else
    let newest_files := get_newest_files tr.listing MAX_FILES
    if newest_files.isEmpty then none
    else
      let downloaded_files := newest_files.filterMap (fun f => tr.download f.filename)
      some (process_downloaded pyFloat downloaded_files)

/-! ## MQTT publication: `publish_to_mqtt` (tank_data_reader.py 463-506) -/

/-- The publish sub-steps, in the order the function performs them. -/
inductive PubStep where
  | lastUpdate
  | transactions
  | perRecord (transaction_id : Option String)
  | totalQuantity
  | articleCounts
deriving Repr, DecidableEq

/-- The full ordered sub-step sequence for a record collection (every record
carries a `TransactionNumber`, so the per-record guard always passes). -/
def mqttSteps (data_list : List Record) : List PubStep :=
  [PubStep.lastUpdate, PubStep.transactions] ++
    data_list.map (fun r => PubStep.perRecord r.TransactionNumber) ++
    [PubStep.totalQuantity, PubStep.articleCounts]

/-- Execute steps in order under the single `try`/`except` of
`publish_to_mqtt`: a step on which `pub` reports failure raises, and the one
surrounding handler ends the whole routine.  Returns the attempted steps. -/
def attemptSteps (pub : PubStep → Bool) : List PubStep → List PubStep
  | [] => []
  | s :: rest => if pub s then s :: attemptSteps pub rest else [s]

/-- `publish_to_mqtt(client, data_list)`: skipped entirely without a client,
otherwise the steps run inside one exception handler. -/
def publish_to_mqtt (clientConnected : Bool) (pub : PubStep → Bool)
    (data_list : List Record) : List PubStep :=
  if !clientConnected then [] else attemptSteps pub (mqttSteps data_list)

/-! ## Web server: `update_data` and `/api/tankdata` (web_server.py) -/

/-- The process-wide web-server state the claims observe: the
`last_update_time` global and the report file, abstracted to the record
collection rendered into it (`none` = not yet written). -/
structure WebState where
  last_update_time : Int
  report : Option (List Record)
deriving Repr, DecidableEq

/-- `main()` of tank_data_reader.py restricted to its effect on the report:
it rewrites the report exactly when `fetch_and_process_data` returns a
non-empty record list, and never raises — every transport failure is caught
inside `fetch_and_process_data` and surfaces as `None` (MQTT effects are
modelled by `publish_to_mqtt`; OUTPUT_FILE write errors are outside the
model). -/
def tank_data_main (pyFloat : String → Option Rat) (tr : Transport)
    (report : Option (List Record)) : Option (List Record) :=
  match fetch_and_process_data pyFloat tr with
  | some data_list => if data_list.isEmpty then report else some data_list
  | none => report

structure UpdateResult where
  state : WebState
  success : Bool
  message : String
deriving Repr

/-- `update_data()` (web_server.py 81-96): under `data_lock`, run
`tank_data_reader.main()`, then unconditionally set `last_update_time` to the
current time and report success — the `except` branch is unreachable in the
modelled world because `main` swallows transport failures. -/
def update_data (pyFloat : String → Option Rat) (tr : Transport) (now : Int)
    (s : WebState) : UpdateResult :=
  { state := { last_update_time := now, report := tank_data_main pyFloat tr s.report },
    success := true,
    message := "Data updated successfully" }

structure ApiResponse where
  success : Bool
  data : List Record
  count : Nat
deriving Repr, DecidableEq

/-- `/api/tankdata` (web_server.py 143-168): calls
`fetch_and_process_data` afresh and never reads the process state `s`
(the parameter is there precisely to show the handler ignores it). -/
def api_tankdata (pyFloat : String → Option Rat) (tr : Transport)
    (s : WebState) : ApiResponse :=
  match fetch_and_process_data pyFloat tr with
  | some data_list =>
      if data_list.isEmpty then { success := false, data := [], count := 0 }
      else { success := true, data := data_list, count := data_list.length }
  | none => { success := false, data := [], count := 0 }

/-- Lock-relevant actions a request handler performs, read off the code
structure: `update_data` wraps its whole body in `with data_lock`, while
`api_tankdata` calls the fetch cycle directly. -/
inductive Action where
  | acquireLock
  | releaseLock
  | runFetchCycle
deriving Repr, DecidableEq

def update_data_actions : List Action :=
  [Action.acquireLock, Action.runFetchCycle, Action.releaseLock]

def api_tankdata_actions : List Action :=
  [Action.runFetchCycle]

/-! ## Concrete fixtures used by witnesses and counterexamples -/

/-- A `float()` model that is never consulted by the fixtures below. -/
def pf0 : String → Option Rat := fun _ => none

/-- A transaction whose date text matches neither known format. -/
def tBadDate : Transaction :=
  ⟨some (some "1"), some (some "not a date"), none, none, none, none⟩

/-- A transaction with every sub-element absent. -/
def tAllNone : Transaction :=
  ⟨none, none, none, none, none, none⟩

/-- A transaction whose `TransactionNumber` element is present but empty
(`<TransactionNumber/>`, `.text = None`). -/
def tNullId : Transaction :=
  ⟨some none, none, none, none, none, none⟩

/-- A transaction whose date element is present but empty. -/
def tNullDate : Transaction :=
  ⟨none, some none, none, none, none, none⟩

/-- A transaction whose quantity element is present but empty. -/
def tNullQty : Transaction :=
  ⟨none, none, none, none, some none, none⟩

/-- The all-sentinel record that `parse_xml_file` extracts from `tAllNone`. -/
def recNA : Record :=
  ⟨some "N/A", "N/A", "1970-01-01T00:00:00", some "N/A", some "N/A", some "N/A",
   "N/A", 0, some "N/A"⟩

/-- A listing of 12 XML files with distinct modification times (in scrambled
order) plus one non-matching file. -/
def listing12 : List FileAttr :=
  [⟨"a.xml", 3⟩, ⟨"b.xml", 7⟩, ⟨"c.xml", 1⟩, ⟨"d.XML", 12⟩, ⟨"e.xml", 5⟩,
   ⟨"f.xml", 9⟩, ⟨"g.xml", 2⟩, ⟨"h.xml", 11⟩, ⟨"i.xml", 4⟩, ⟨"j.xml", 10⟩,
   ⟨"k.xml", 6⟩, ⟨"l.xml", 8⟩, ⟨"m.txt", 100⟩]

/-- The ten newest XML files of `listing12`, newest first. -/
def newest10 : List FileAttr :=
  [⟨"d.XML", 12⟩, ⟨"h.xml", 11⟩, ⟨"j.xml", 10⟩, ⟨"f.xml", 9⟩, ⟨"l.xml", 8⟩,
   ⟨"b.xml", 7⟩, ⟨"k.xml", 6⟩, ⟨"e.xml", 5⟩, ⟨"i.xml", 4⟩, ⟨"a.xml", 3⟩]

/-- A transport whose connection attempt fails. -/
def trFailConn : Transport :=
  ⟨false, .ok [], fun _ => none⟩

/-- A connected transport whose `listdir_attr` raises. -/
def trListErr : Transport :=
  ⟨true, .err "connection reset", fun _ => none⟩

/-- A connected transport with an empty directory. -/
def trEmpty : Transport :=
  ⟨true, .ok [], fun _ => none⟩

/-- A fully working transport serving one minimal XML file. -/
def trOk : Transport :=
  ⟨true, .ok [⟨"a.xml", 5⟩], fun _ => some (.parsed (some tAllNone))⟩

/-- A publish capability on which the very first sub-step raises. -/
def pubFailFirst : PubStep → Bool :=
  fun s => !(s == PubStep.lastUpdate)

/-! ## Stable-sort lemmas -/

theorem pySortDescBy_perm {α β : Type} [LinearOrder β] (key : α → β) (l : List α) :
    (pySortDescBy key l).Perm l :=
  List.perm_insertionSort _ l

theorem chain'_pySortDescBy {α β : Type} [LinearOrder β] (key : α → β) (l : List α) :
    List.Chain' (fun a b => key b ≤ key a) (pySortDescBy key l) := by
  haveI : IsTotal α (fun a b => key b ≤ key a) := ⟨fun a b => le_total (key b) (key a)⟩
  haveI : IsTrans α (fun a b => key b ≤ key a) := ⟨fun a b c h1 h2 => le_trans h2 h1⟩
  exact (List.sorted_insertionSort _ l).chain'

theorem chain'_take_pySortDescBy {α β : Type} [LinearOrder β] (key : α → β)
    (l : List α) (m : Nat) :
    List.Chain' (fun a b => key b ≤ key a) ((pySortDescBy key l).take m) := by
  haveI : IsTotal α (fun a b => key b ≤ key a) := ⟨fun a b => le_total (key b) (key a)⟩
  haveI : IsTrans α (fun a b => key b ≤ key a) := ⟨fun a b c h1 h2 => le_trans h2 h1⟩
  exact (List.Pairwise.sublist (List.take_sublist m _)
    (List.sorted_insertionSort _ l)).chain'

/-- Stability of one ordered insertion: for a predicate `p` that holds
exactly on one key value `k`, the elements satisfying `p` are unchanged,
except that the inserted element (when its key is `k`) lands in front of
them. -/
theorem filter_key_orderedInsert {α β : Type} [LinearOrder β] (key : α → β)
    (k : β) (p : α → Bool) (hp : ∀ a, p a = true ↔ key a = k)
    (x : α) (l : List α) :
    ((l.orderedInsert (fun a b => key b ≤ key a) x).filter p) =
      if p x then x :: l.filter p else l.filter p := by
  induction l with
  | nil =>
      cases h : p x <;> simp [List.orderedInsert, List.filter, h]
  | cons b l ih =>
      by_cases hle : key b ≤ key x
      · cases h : p x <;>
          simp [List.orderedInsert, if_pos hle, List.filter, h]
      · have hlt : key x < key b := lt_of_not_le hle
        cases hx : p x with
        | false =>
            cases hb : p b <;>
              simp [List.orderedInsert, if_neg hle, List.filter, hb, ih, hx]
        | true =>
            have hkx : key x = k := (hp x).mp hx
            have hb : p b = false := by
              cases hpb : p b with
              | false => rfl
              | true =>
                  have hbk : key b = k := (hp b).mp hpb
                  have hbx : key b = key x := hbk.trans hkx.symm
                  rw [hbx] at hlt
                  exact absurd hlt (lt_irrefl _)
            simp [List.orderedInsert, if_neg hle, List.filter, hb, ih, hx]

/-- Stability of the whole sort: for every key value, filtering the sorted
list yields the same subsequence as filtering the input. -/
theorem filter_key_pySortDescBy {α β : Type} [LinearOrder β] (key : α → β)
    (k : β) (p : α → Bool) (hp : ∀ a, p a = true ↔ key a = k) (l : List α) :
    ((pySortDescBy key l).filter p) = l.filter p := by
  induction l with
  | nil => rfl
  | cons x l ih =>
      simp only [pySortDescBy, List.insertionSort] at ih ⊢
      rw [filter_key_orderedInsert key k p hp]
      cases hx : p x <;> simp [List.filter, hx, ih]

/-- The steps attempted under a single `try`/`except` are the successful
prefix plus the first failing step. -/
theorem attemptSteps_eq (pub : PubStep → Bool) (l : List PubStep) :
    attemptSteps pub l = l.takeWhile pub ++ (l.dropWhile pub).take 1 := by
  induction l with
  | nil => rfl
  | cons s rest ih =>
      cases h : pub s <;>
        simp [attemptSteps, h, List.takeWhile_cons, List.dropWhile_cons, ih]

/-- The date block survives exactly when the date element is not
present-but-empty. -/
theorem dateFields_isSome (tsd : Option (Option String)) (h : tsd ≠ some none) :
    (dateFields tsd).isSome = true := by
  match tsd with
  | none => rfl
  | some none => exact absurd rfl h
  | some (some txt) =>
      cases h1 : strptimeYmd txt with
      | some dt => simp [dateFields, h1]
      | none => cases h2 : strptimeDmy txt <;> simp [dateFields, h1, h2]

/-- The quantity block survives exactly when the quantity element is not
present-but-empty. -/
theorem quantityFields_isSome (pyFloat : String → Option Rat)
    (tq : Option (Option String)) (h : tq ≠ some none) :
    (quantityFields pyFloat tq).isSome = true := by
  match tq with
  | none => rfl
  | some none => exact absurd rfl h
  | some (some q) => rfl

/-- The shape of a successful parse, given surviving date and quantity
blocks. -/
theorem parse_xml_file_eq_some (pyFloat : String → Option Rat) (t : Transaction)
    (df : String × String) (qf : String × Rat)
    (hdf : dateFields t.transactionStartDate = some df)
    (hqf : quantityFields pyFloat t.transactionQuantity = some qf) :
    parse_xml_file pyFloat (.parsed (some t)) =
      some
        { TransactionNumber := textOrNA t.transactionNumber,
          TransactionStartDate := df.1,
          RawDate := df.2,
          DispenserNumber := textOrNA t.dispenserNumber,
          ArticleNumber := (articleFields t.articleNumber).1,
          RawArticleNumber := (articleFields t.articleNumber).2,
          TransactionQuantity := qf.1,
          RawQuantity := qf.2,
          Kennzeichen := textOrNA t.additionalEntry } := by
  simp [parse_xml_file, hdf, hqf]

/-- A present-but-empty date element aborts the whole parse. -/
theorem parse_none_of_nullDate (pyFloat : String → Option Rat)
    (t : Transaction) (h : t.transactionStartDate = some none) :
    parse_xml_file pyFloat (.parsed (some t)) = none := by
  cases hq : quantityFields pyFloat t.transactionQuantity <;>
    simp [parse_xml_file, h, dateFields, hq]

/-- A present-but-empty quantity element aborts the whole parse. -/
theorem parse_none_of_nullQty (pyFloat : String → Option Rat)
    (t : Transaction) (h : t.transactionQuantity = some none) :
    parse_xml_file pyFloat (.parsed (some t)) = none := by
  cases hd : dateFields t.transactionStartDate <;>
    simp [parse_xml_file, h, quantityFields, hd]

/-! ## Claim C1 -/

/-- C1 (counterexample): a parsed document whose `TransactionStartDate` text
matches neither known format keeps that raw text as `RawDate` — the
epoch-zero sentinel is not used, so the sort key is not always an ISO-8601
string. -/
theorem C1_counterexample :
    strptimeYmd "not a date" = none ∧ strptimeDmy "not a date" = none ∧
    (parse_xml_file pf0 (.parsed (some tBadDate))).map Record.RawDate =
      some "not a date" ∧
    ("not a date" : String) ≠ "1970-01-01T00:00:00" :=
  ⟨by decide, by decide, by decide, by decide⟩

/-- C1 (amended): in a record that is returned, `RawDate` falls back to the
epoch-zero sentinel only when the date element is absent; when the element
carries text that matches neither known format, `RawDate` stores that raw
unparsed text. -/
theorem C1_amended (pyFloat : String → Option Rat) (t t2 : Transaction)
    (txt : String) (hd : t.transactionStartDate = some (some txt))
    (h1 : strptimeYmd txt = none) (h2 : strptimeDmy txt = none)
    (hq : t.transactionQuantity ≠ some none)
    (h3 : t2.transactionStartDate = none)
    (hq2 : t2.transactionQuantity ≠ some none) :
    (parse_xml_file pyFloat (.parsed (some t))).map Record.RawDate = some txt ∧
    (parse_xml_file pyFloat (.parsed (some t2))).map Record.RawDate =
      some "1970-01-01T00:00:00" := by
  obtain ⟨qf, hqf⟩ :=
    Option.isSome_iff_exists.mp (quantityFields_isSome pyFloat _ hq)
  obtain ⟨qf2, hqf2⟩ :=
    Option.isSome_iff_exists.mp (quantityFields_isSome pyFloat _ hq2)
  have hdf : dateFields t.transactionStartDate = some (txt, txt) := by
    simp [dateFields, hd, h1, h2]
  have hdf2 : dateFields t2.transactionStartDate =
      some ("N/A", "1970-01-01T00:00:00") := by
    simp [dateFields, h3]
  rw [parse_xml_file_eq_some pyFloat t _ _ hdf hqf,
    parse_xml_file_eq_some pyFloat t2 _ _ hdf2 hqf2]
  exact ⟨rfl, rfl⟩

/-- C1 (witness): `C1_amended` applied to a concrete unparsable date text and
a concrete dateless transaction. -/
theorem C1_amended_witness :
    (parse_xml_file pf0 (.parsed (some tBadDate))).map Record.RawDate =
      some "not a date" ∧
    (parse_xml_file pf0 (.parsed (some tAllNone))).map Record.RawDate =
      some "1970-01-01T00:00:00" :=
  C1_amended pf0 tBadDate tAllNone "not a date" rfl (by decide) (by decide)
    (by decide) rfl (by decide)

/-! ## Claim C2 -/

/-- C2 (counterexample): with a failed SFTP connection, `update_data` still
reports success and advances `last_update_time` from 0 to 100, because
`tank_data_reader.main()` swallows the transport failure — contradicting the
claim that the refresh fails with `lastSuccessAt` unchanged. -/
theorem C2_counterexample :
    fetch_and_process_data pf0 trFailConn = none ∧
    (update_data pf0 trFailConn 100 ⟨0, some [recNA]⟩).success = true ∧
    (update_data pf0 trFailConn 100 ⟨0, some [recNA]⟩).state.last_update_time = 100 ∧
    (100 : Int) ≠ 0 :=
  ⟨rfl, rfl, rfl, by decide⟩

/-- C2 (amended): when the transport-level fetch fails, the previously
generated report is left unmodified, but `update_data` nevertheless reports
success and sets `last_update_time` to the current time, because `main()`
returns normally after `fetch_and_process_data` yields `None`. -/
theorem C2_amended (pyFloat : String → Option Rat) (tr : Transport) (now : Int)
    (s : WebState) (h : fetch_and_process_data pyFloat tr = none) :
    (update_data pyFloat tr now s).state.report = s.report ∧
    (update_data pyFloat tr now s).success = true ∧
    (update_data pyFloat tr now s).state.last_update_time = now := by
  refine ⟨?_, rfl, rfl⟩
  simp [update_data, tank_data_main, h]

/-- C2 (witness): `C2_amended` at a concrete failed-connection transport. -/
theorem C2_amended_witness :
    (update_data pf0 trFailConn 100 ⟨0, some [recNA]⟩).state.report =
      WebState.report ⟨0, some [recNA]⟩ ∧
    (update_data pf0 trFailConn 100 ⟨0, some [recNA]⟩).success = true ∧
    (update_data pf0 trFailConn 100 ⟨0, some [recNA]⟩).state.last_update_time = 100 :=
  C2_amended pf0 trFailConn 100 ⟨0, some [recNA]⟩ rfl

/-! ## Claim C3 -/

/-- C3 (counterexample): a listing failure and an empty listing produce
identical outcomes at both the selector and the orchestrator — the selector
catches the exception and returns `[]`, so callers cannot distinguish
"nothing to do" from "transport unreachable". -/
theorem C3_counterexample :
    get_newest_files (.err "connection reset") 10 = get_newest_files (.ok []) 10 ∧
    fetch_and_process_data pf0 trListErr = fetch_and_process_data pf0 trEmpty ∧
    fetch_and_process_data pf0 trListErr = none :=
  ⟨rfl, rfl, rfl⟩

/-- C3 (amended): a transport list failure does not propagate as a distinct
error: `get_newest_files` catches it and returns the empty list, the same
value an empty filtered set yields, and `fetch_and_process_data` maps both to
`None`. -/
theorem C3_amended (e : String) (m : Nat) (pyFloat : String → Option Rat)
    (d : String → Option XmlFile) :
    get_newest_files (.err e) m = [] ∧
    get_newest_files (.ok []) m = [] ∧
    fetch_and_process_data pyFloat ⟨true, .err e, d⟩ = none ∧
    fetch_and_process_data pyFloat ⟨true, .ok [], d⟩ = none := by
  refine ⟨rfl, ?_, rfl, rfl⟩
  simp [get_newest_files, pySortDescBy]

/-! ## Claim C4 -/

/-- C4 (counterexample): when the first publish sub-step raises, the single
`try`/`except` around `publish_to_mqtt` stops the whole routine: only the
first of the five sub-steps is attempted. -/
theorem C4_counterexample :
    publish_to_mqtt true pubFailFirst [recNA] = [PubStep.lastUpdate] ∧
    mqttSteps [recNA] =
      [PubStep.lastUpdate, PubStep.transactions, PubStep.perRecord (some "N/A"),
       PubStep.totalQuantity, PubStep.articleCounts] ∧
    publish_to_mqtt true pubFailFirst [recNA] ≠ mqttSteps [recNA] :=
  ⟨rfl, rfl, by decide⟩

/-- C4 (amended): the sub-steps all run inside one exception handler, so a
failure in one sub-step aborts the remaining ones: the attempted steps are
exactly the successful prefix plus the first failing step. -/
theorem C4_amended (pub : PubStep → Bool) (data_list : List Record) :
    publish_to_mqtt true pub data_list =
      (mqttSteps data_list).takeWhile pub ++
        ((mqttSteps data_list).dropWhile pub).take 1 := by
  simpa [publish_to_mqtt] using attemptSteps_eq pub (mqttSteps data_list)

/-! ## Claim C5 -/

/-- C5 (confirmed): the orchestrator's sort step produces a permutation of
the extracted records, ordered by `RawDate` (compared as Python compares
strings, by code points) descending, and for every sort-key value the records
bearing it keep their relative extraction order (stability). -/
theorem C5_sorted_stable (pyFloat : String → Option Rat)
    (downloaded_files : List XmlFile) (k : List Char) :
    (process_downloaded pyFloat downloaded_files).Perm
      (downloaded_files.filterMap (parse_xml_file pyFloat)) ∧
    List.Chain' (fun a b : Record => b.RawDate.data ≤ a.RawDate.data)
      (process_downloaded pyFloat downloaded_files) ∧
    (process_downloaded pyFloat downloaded_files).filter
        (fun r => r.RawDate.data == k) =
      (downloaded_files.filterMap (parse_xml_file pyFloat)).filter
        (fun r => r.RawDate.data == k) :=
  ⟨pySortDescBy_perm _ _, chain'_pySortDescBy _ _,
   filter_key_pySortDescBy (fun r : Record => r.RawDate.data) k
     (fun r : Record => r.RawDate.data == k) (fun a => by simp) _⟩

/-! ## Claim C6 -/

/-- C6 (confirmed): the selector keeps exactly the case-insensitive `.xml`
names, orders them by `st_mtime` descending with ties in original listing
order, takes the first `max_files`, and on a listing of 12 matching files
with distinct times and `max_files = 10` returns exactly the 10 newest. -/
theorem C6_selector (listing : List FileAttr) (m : Nat) (k : Int) :
    (get_newest_files (.ok listing) m).all
      (fun f => pyEndsWith (pyLower f.filename) ".xml") = true ∧
    List.Chain' (fun a b : FileAttr => b.st_mtime ≤ a.st_mtime)
      (get_newest_files (.ok listing) m) ∧
    (get_newest_files (.ok listing) m).length =
      min m (listing.filter (fun f => pyEndsWith (pyLower f.filename) ".xml")).length ∧
    (pySortDescBy (fun f => f.st_mtime)
        (listing.filter (fun f => pyEndsWith (pyLower f.filename) ".xml"))).filter
        (fun f => f.st_mtime == k) =
      (listing.filter (fun f => pyEndsWith (pyLower f.filename) ".xml")).filter
        (fun f => f.st_mtime == k) ∧
    get_newest_files (.ok listing12) 10 = newest10 := by
  refine ⟨?_, chain'_take_pySortDescBy _ _ _, ?_,
    filter_key_pySortDescBy (fun f : FileAttr => f.st_mtime) k
      (fun f : FileAttr => f.st_mtime == k) (fun a => by simp) _,
    by decide⟩
  · rw [List.all_eq_true]
    intro f hf
    have h1 : f ∈ pySortDescBy (fun f => f.st_mtime)
        (listing.filter (fun f => pyEndsWith (pyLower f.filename) ".xml")) :=
      List.take_subset _ _ hf
    have h2 := (pySortDescBy_perm (fun f : FileAttr => f.st_mtime) _).mem_iff.mp h1
    exact (List.mem_filter.mp h2).2
  · show ((pySortDescBy (fun f : FileAttr => f.st_mtime)
        (listing.filter (fun f => pyEndsWith (pyLower f.filename) ".xml"))).take
        m).length = _
    rw [List.length_take, (pySortDescBy_perm (fun f : FileAttr => f.st_mtime) _).length_eq]

/-! ## Claim C7 -/

/-- C7 (counterexample): a document whose `TransactionNumber` element is
present but empty (`<TransactionNumber/>`, so ElementTree's `.text` is
`None`) extracts successfully into a record whose id value is the Python
null, not the "N/A" sentinel — refuting "never missing or null". -/
theorem C7_counterexample :
    (parse_xml_file pf0 (.parsed (some tNullId))).isSome = true ∧
    (parse_xml_file pf0 (.parsed (some tNullId))).map Record.TransactionNumber =
      some none ∧
    some (none : Option String) ≠ some (some "N/A") :=
  ⟨by decide, by decide, by decide⟩

/-- C7 (amended): a returned record always carries all nine keys; an absent
element yields its sentinel ("N/A", epoch-zero, 0.0); but a present-but-empty
element stores the null text as a null value for the id, station index,
category, category code and tag fields, and a present-but-empty date or
quantity element makes extraction fail entirely (no record at all). -/
theorem C7_amended (pyFloat : String → Option Rat) (t t2 t3 : Transaction)
    (hd : t.transactionStartDate ≠ some none)
    (hq : t.transactionQuantity ≠ some none)
    (h2 : t2.transactionStartDate = some none)
    (h3 : t3.transactionQuantity = some none) :
    (parse_xml_file pyFloat (.parsed (some t))).isSome = true ∧
    (t.transactionNumber = none →
      (parse_xml_file pyFloat (.parsed (some t))).map Record.TransactionNumber =
        some (some "N/A")) ∧
    (t.transactionNumber = some none →
      (parse_xml_file pyFloat (.parsed (some t))).map Record.TransactionNumber =
        some none) ∧
    (t.transactionStartDate = none →
      (parse_xml_file pyFloat (.parsed (some t))).map Record.TransactionStartDate =
          some "N/A" ∧
      (parse_xml_file pyFloat (.parsed (some t))).map Record.RawDate =
        some "1970-01-01T00:00:00") ∧
    (t.dispenserNumber = none →
      (parse_xml_file pyFloat (.parsed (some t))).map Record.DispenserNumber =
        some (some "N/A")) ∧
    (t.articleNumber = none →
      (parse_xml_file pyFloat (.parsed (some t))).map Record.ArticleNumber =
          some (some "N/A") ∧
      (parse_xml_file pyFloat (.parsed (some t))).map Record.RawArticleNumber =
        some (some "N/A")) ∧
    (t.transactionQuantity = none →
      (parse_xml_file pyFloat (.parsed (some t))).map Record.TransactionQuantity =
          some "N/A" ∧
      (parse_xml_file pyFloat (.parsed (some t))).map Record.RawQuantity = some 0) ∧
    (t.additionalEntry = none →
      (parse_xml_file pyFloat (.parsed (some t))).map Record.Kennzeichen =
        some (some "N/A")) ∧
    parse_xml_file pyFloat (.parsed (some t2)) = none ∧
    parse_xml_file pyFloat (.parsed (some t3)) = none := by
  obtain ⟨⟨df1, df2⟩, hdf⟩ :=
    Option.isSome_iff_exists.mp (dateFields_isSome _ hd)
  obtain ⟨⟨qf1, qf2⟩, hqf⟩ :=
    Option.isSome_iff_exists.mp (quantityFields_isSome pyFloat _ hq)
  have hp := parse_xml_file_eq_some pyFloat t (df1, df2) (qf1, qf2) hdf hqf
  refine ⟨by simp [hp], ?_, ?_, ?_, ?_, ?_, ?_, ?_,
    parse_none_of_nullDate pyFloat t2 h2, parse_none_of_nullQty pyFloat t3 h3⟩
  · intro h
    simp [hp, textOrNA, h]
  · intro h
    simp [hp, textOrNA, h]
  · intro h
    rw [h] at hdf
    simp only [dateFields, Option.some.injEq, Prod.mk.injEq] at hdf
    obtain ⟨e1, e2⟩ := hdf
    subst e1
    subst e2
    simp [hp]
  · intro h
    simp [hp, textOrNA, h]
  · intro h
    simp [hp, articleFields, h]
  · intro h
    rw [h] at hqf
    simp only [quantityFields, Option.some.injEq, Prod.mk.injEq] at hqf
    obtain ⟨e1, e2⟩ := hqf
    subst e1
    subst e2
    simp [hp]
  · intro h
    simp [hp, textOrNA, h]

/-- C7 (witness): `C7_amended` at a concrete empty-id transaction and
concrete empty-date and empty-quantity transactions. -/
theorem C7_amended_witness :
    (parse_xml_file pf0 (.parsed (some tNullId))).isSome = true ∧
    (parse_xml_file pf0 (.parsed (some tNullId))).map Record.TransactionNumber =
      some none ∧
    (parse_xml_file pf0 (.parsed (some tNullId))).map Record.RawDate =
      some "1970-01-01T00:00:00" ∧
    (parse_xml_file pf0 (.parsed (some tNullId))).map Record.RawQuantity =
      some 0 ∧
    parse_xml_file pf0 (.parsed (some tNullDate)) = none ∧
    parse_xml_file pf0 (.parsed (some tNullQty)) = none := by
  have h := C7_amended pf0 tNullId tNullDate tNullQty (by decide) (by decide)
    rfl rfl
  exact ⟨h.1, h.2.2.1 rfl, (h.2.2.2.1 rfl).2, (h.2.2.2.2.2.2.1 rfl).2,
    h.2.2.2.2.2.2.2.2.1, h.2.2.2.2.2.2.2.2.2⟩

/-! ## Claim C8 -/

/-- C8 (confirmed): the category code element maps "1" to "AVGAS" and "2" to
"MOGAS", each retaining its raw code, while any other value passes through
unchanged as both label and code. -/
theorem C8_category (pyFloat : String → Option Rat) (t : Transaction)
    (a : String) (ha : t.articleNumber = some (some a))
    (hd : t.transactionStartDate ≠ some none)
    (hq : t.transactionQuantity ≠ some none) :
    (a = "1" →
      (parse_xml_file pyFloat (.parsed (some t))).map Record.ArticleNumber =
          some (some "AVGAS") ∧
      (parse_xml_file pyFloat (.parsed (some t))).map Record.RawArticleNumber =
        some (some "1")) ∧
    (a = "2" →
      (parse_xml_file pyFloat (.parsed (some t))).map Record.ArticleNumber =
          some (some "MOGAS") ∧
      (parse_xml_file pyFloat (.parsed (some t))).map Record.RawArticleNumber =
        some (some "2")) ∧
    (a ≠ "1" → a ≠ "2" →
      (parse_xml_file pyFloat (.parsed (some t))).map Record.ArticleNumber =
          some (some a) ∧
      (parse_xml_file pyFloat (.parsed (some t))).map Record.RawArticleNumber =
        some (some a)) := by
  obtain ⟨df, hdf⟩ := Option.isSome_iff_exists.mp (dateFields_isSome _ hd)
  obtain ⟨qf, hqf⟩ :=
    Option.isSome_iff_exists.mp (quantityFields_isSome pyFloat _ hq)
  have hp := parse_xml_file_eq_some pyFloat t df qf hdf hqf
  refine ⟨?_, ?_, ?_⟩
  · intro h
    subst h
    constructor <;> simp [hp, articleFields, ha]
  · intro h
    subst h
    constructor <;> simp [hp, articleFields, ha]
  · intro h1 h2
    have b1 : ((some a : Option String) == some "1") = false := by
      simp [beq_eq_false_iff_ne, h1]
    have b2 : ((some a : Option String) == some "2") = false := by
      simp [beq_eq_false_iff_ne, h2]
    constructor <;> simp [hp, articleFields, ha, b1, b2]

/-- C8 (witness): `C8_category` at concrete codes "1", "2" and "7". -/
theorem C8_category_witness :
    (parse_xml_file pf0
        (.parsed (some ⟨none, none, none, some (some "1"), none, none⟩))).map
        Record.ArticleNumber = some (some "AVGAS") ∧
    (parse_xml_file pf0
        (.parsed (some ⟨none, none, none, some (some "2"), none, none⟩))).map
        Record.ArticleNumber = some (some "MOGAS") ∧
    (parse_xml_file pf0
        (.parsed (some ⟨none, none, none, some (some "7"), none, none⟩))).map
        Record.ArticleNumber = some (some "7") ∧
    (parse_xml_file pf0
        (.parsed (some ⟨none, none, none, some (some "7"), none, none⟩))).map
        Record.RawArticleNumber = some (some "7") :=
  ⟨((C8_category pf0 ⟨none, none, none, some (some "1"), none, none⟩ "1" rfl
      (by decide) (by decide)).1 rfl).1,
   ((C8_category pf0 ⟨none, none, none, some (some "2"), none, none⟩ "2" rfl
      (by decide) (by decide)).2.1 rfl).1,
   ((C8_category pf0 ⟨none, none, none, some (some "7"), none, none⟩ "7" rfl
      (by decide) (by decide)).2.2 (by decide) (by decide)).1,
   ((C8_category pf0 ⟨none, none, none, some (some "7"), none, none⟩ "7" rfl
      (by decide) (by decide)).2.2 (by decide) (by decide)).2⟩

/-! ## Claim C9 -/

/-- C9 (counterexample): two lock-serialized `update_data` invocations each
write `last_update_time` (0 → 10 → 20), so `RefreshState` is updated twice
for the pair, not exactly once, and the second call does not return the
first's result. -/
theorem C9_counterexample :
    (update_data pf0 trOk 10 ⟨0, none⟩).state.last_update_time = 10 ∧
    (update_data pf0 trOk 20
        (update_data pf0 trOk 10 ⟨0, none⟩).state).state.last_update_time = 20 ∧
    (10 : Int) ≠ 0 ∧ (20 : Int) ≠ 10 :=
  ⟨rfl, rfl, by decide, by decide⟩

/-- C9 (amended): the `data_lock` serializes the two invocations, so at most
one fetch cycle runs at a time; but the second invocation, once the first
releases the lock, runs its own full fetch cycle and writes
`last_update_time` again — once per invocation, twice for the pair — and
returns the outcome of its own cycle rather than the first's. -/
theorem C9_serialized_pair (pyFloat : String → Option Rat) (tr : Transport)
    (now1 now2 : Int) (s0 : WebState) :
    (update_data pyFloat tr now1 s0).state.last_update_time = now1 ∧
    (update_data pyFloat tr now2
        (update_data pyFloat tr now1 s0).state).state.last_update_time = now2 ∧
    (update_data pyFloat tr now2
        (update_data pyFloat tr now1 s0).state).state.report =
      tank_data_main pyFloat tr (update_data pyFloat tr now1 s0).state.report ∧
    (update_data pyFloat tr now2
        (update_data pyFloat tr now1 s0).state).success = true :=
  ⟨rfl, rfl, rfl, rfl⟩

/-! ## Claim C10 -/

/-- C10 (confirmed): `/api/tankdata` ignores the cached process state and
serves the result of a fresh `fetch_and_process_data` cycle (connect, list,
download, parse, sort), and its handler performs no `data_lock`
acquisition, unlike `update_data`. -/
theorem C10_fresh_fetch (pyFloat : String → Option Rat) (tr : Transport)
    (s1 s2 : WebState) :
    api_tankdata pyFloat tr s1 = api_tankdata pyFloat tr s2 ∧
    (api_tankdata pyFloat tr s1).data = (fetch_and_process_data pyFloat tr).getD [] ∧
    (api_tankdata pyFloat tr s1).success =
      !((fetch_and_process_data pyFloat tr).getD []).isEmpty ∧
    Action.acquireLock ∉ api_tankdata_actions ∧
    Action.acquireLock ∈ update_data_actions ∧
    Action.runFetchCycle ∈ api_tankdata_actions := by
  refine ⟨rfl, ?_, ?_, by decide, by decide, by decide⟩
  · cases h : fetch_and_process_data pyFloat tr with
    | none => simp [api_tankdata, h]
    | some data_list =>
        cases data_list with
        | nil => simp [api_tankdata, h]
        | cons r rest => simp [api_tankdata, h]
  · cases h : fetch_and_process_data pyFloat tr with
    | none => simp [api_tankdata, h]
    | some data_list =>
        cases data_list with
        | nil => simp [api_tankdata, h]
        | cons r rest => simp [api_tankdata, h]

end TankData
